import Mathlib

/-
Verification of the fb-backend HTTP server (src/server.js).

The server drives a headless browser; we embed the request-handling logic
of the two main endpoints, `/api/validate` and `/api/share`, as pure Lean
functions.  The browser world (navigation outcomes, DOM-landmark presence,
thrown automation errors) is an oracle parameter: for `/api/share` one
`AttemptEnv` per attempt, plus pre-loop launch/setup outcomes.

JavaScript numeric coercion is modelled with `Option Int`: `none` plays the
role of `NaN` (`parseInt` on a non-numeric string), and `Math.max`/`Math.min`
propagate `none` exactly as they propagate `NaN`.  `Math.round((s/c)*100)`
is embedded as rational rounding `round (s*100/c)`: for every reachable pair
(0 ≤ s ≤ c, 1 ≤ c ≤ 10) the IEEE-double evaluation the engine performs and
the rational rounding agree, checked exhaustively, so the rational form is
a faithful embedding on the reachable range.

Timestamps (`new Date().toISOString()`) attached to attempt records are not
modelled; no claim refers to their values.
-/

namespace FbBackend

/-- One cookie entry of an AppState array; identity key is `name`
(`appstate.find(c => c.name === 'c_user')`). -/
structure Cookie where
  name : String
  value : String
deriving DecidableEq, Repr

/-- A JSON scalar as it can arrive in the `count` / `delay` body fields:
an integer number or a string.  (Non-integer numbers never appear in any
claim; `parseInt` of an integral JS number is that integer.) -/
inductive JsonVal where
  | num : Int → JsonVal
  | str : String → JsonVal
deriving DecidableEq, Repr

/-- Numeric value of a run of leading decimal digits; `none` when the run
is empty (the case where JS `parseInt` yields `NaN`). -/
def leadingDigits (cs : List Char) : Option Nat :=
  let ds := cs.takeWhile Char.isDigit
  if ds.isEmpty then none
  else some (ds.foldl (fun a c => a * 10 + (c.toNat - 48)) 0)

/-- JS `String.prototype.trim`: strip whitespace from both ends, modelled
on the character list (JS and Lean whitespace classes agree on every
string fixed by the server code). -/
def jsTrim (s : String) : String :=
  ⟨((s.data.dropWhile Char.isWhitespace).reverse.dropWhile Char.isWhitespace).reverse⟩

/-- JS `parseInt` on a scalar: integers pass through; a string is parsed as
optional whitespace, optional sign, then leading decimal digits, giving
`none` (NaN) when no digits are found. -/
def jsParseInt : JsonVal → Option Int
  | .num n => some n
  | .str s =>
    match s.toList.dropWhile Char.isWhitespace with
    | '-' :: rest => (leadingDigits rest).map (fun n => -(n : Int))
    | '+' :: rest => (leadingDigits rest).map (fun n => (n : Int))
    | rest => (leadingDigits rest).map (fun n => (n : Int))

/-- JS `Math.max` on possibly-NaN integers: NaN absorbs. -/
def jsMax (a b : Option Int) : Option Int :=
  match a, b with
  | some x, some y => some (max x y)
  | _, _ => none

/-- JS `Math.min` on possibly-NaN integers: NaN absorbs. -/
def jsMin (a b : Option Int) : Option Int :=
  match a, b with
  | some x, some y => some (min x y)
  | _, _ => none

/-- Resource events observable during one request: browser acquisition
(`puppeteer.launch` returning), browser release (`browser.close()` in the
`finally` block), and the start of share-attempt `i` (1-based). -/
inductive Event where
  | acquire
  | release
  | attemptRun : Nat → Event
deriving DecidableEq, Repr

/-! ## `/api/validate` (src/server.js lines 32-135) -/

/-- Request body of `/api/validate`: `appstate` is `none` when the field is
missing or fails the `Array.isArray` check. -/
structure ValidateRequest where
  appstate : Option (List Cookie)
deriving DecidableEq, Repr

/-- Browser-world oracle for one `/api/validate` request.
`launchErr`: `puppeteer.launch` throws (browser never assigned, so the
`finally` block has nothing to close).  `navErr`: any of
newPage/setViewport/setUserAgent/setCookie/goto/evaluate throws after the
browser exists.  `loggedIn`: result of the landmark `evaluate`
(Create a post / Messenger / Notifications selector present).
`userInfo`: `aria-label` of the profile link, `none` when absent. -/
structure ValidateEnv where
  launchErr : Option String
  navErr : Option String
  loggedIn : Bool
  userInfo : Option String

/-- Response of `/api/validate`, one constructor per exit path of the
handler. -/
inductive ValidateResponse where
  | badRequest : String → ValidateResponse
  | ok : String → String → String → ValidateResponse
  | unauthorized : String → ValidateResponse
  | serverError : String → ValidateResponse
deriving DecidableEq, Repr

/-- HTTP status code of a `/api/validate` response. -/
def ValidateResponse.status : ValidateResponse → Nat
  | .badRequest _ => 400
  | .ok _ _ _ => 200
  | .unauthorized _ => 401
  | .serverError _ => 500

/-- The `success` field of a `/api/validate` response body. -/
def ValidateResponse.successField : ValidateResponse → Bool
  | .ok _ _ _ => true
  | _ => false

/-- Embedding of the `/api/validate` handler: the response together with
the list of resource events, in order of occurrence. -/
def validateHandler (req : ValidateRequest) (env : ValidateEnv) :
    ValidateResponse × List Event :=
  match req.appstate with
  | none =>
    (.badRequest "Invalid AppState format. Must be an array of cookies.", [])
  | some cookies =>
    match cookies.find? (fun c => c.name = "c_user"),
          cookies.find? (fun c => c.name = "xs") with
    | some cu, some _ =>
      match env.launchErr with
      | some m => (.serverError ("Validation failed: " ++ m), [])
      | none =>
        match env.navErr with
        | some m =>
          (.serverError ("Validation failed: " ++ m), [.acquire, .release])
        | none =>
          if env.loggedIn then
            (.ok "Session is valid and ready for automation"
              (env.userInfo.getD "Facebook User") cu.value,
             [.acquire, .release])
          else
            (.unauthorized "Invalid session - unable to login with provided cookies",
             [.acquire, .release])
    | _, _ =>
      (.badRequest "Missing required cookies: c_user or xs", [])

/-! ## `/api/share` (src/server.js lines 138-299) -/

/-- Request body of `/api/share`.  A `none` field is an absent field
(for `appstate`, also a non-array value, per the `Array.isArray` check). -/
structure ShareRequest where
  appstate : Option (List Cookie)
  message : Option String
  link : Option String
  count : Option JsonVal
  delay : Option JsonVal

/-- Clamped share count: `Math.min(Math.max(parseInt(count), 1), 10)` with
destructuring default `count = 1`; `none` is the NaN case. -/
def shareCountOf (req : ShareRequest) : Option Int :=
  jsMin (jsMax (jsParseInt (req.count.getD (.num 1))) (some 1)) (some 10)

/-- Clamped inter-attempt delay: `Math.min(Math.max(parseInt(delay), 5), 60)`
with destructuring default `delay = 15`. -/
def shareDelayOf (req : ShareRequest) : Option Int :=
  jsMin (jsMax (jsParseInt (req.delay.getD (.num 15))) (some 5)) (some 60)

/-- The `!message || message.trim().length === 0` guard. -/
def messageMissing (m : Option String) : Bool :=
  match m with
  | none => true
  | some s => jsTrim s = ""

/-- The `link && link.trim()` guard deciding whether the AttachLink steps
run. -/
def hasLink (l : Option String) : Bool :=
  match l with
  | none => false
  | some s => !(jsTrim s = "")

/-- Browser-world oracle for one attempt of the share loop.  Each `Option
String` is `some msg` when the corresponding page operation throws `msg`.
`loggedIn`: the "[aria-label=Create a post]" landmark is present after
navigation.  `composeStillPresent`: that landmark is still present after
submitting (its disappearance is the success signal). -/
structure AttemptEnv where
  gotoErr : Option String
  loggedIn : Bool
  clickComposeErr : Option String
  typeErr : Option String
  linkClickErr : Option String
  linkTypeErr : Option String
  postClickErr : Option String
  composeStillPresent : Bool

/-- Control flow of one iteration body of the share loop (the `try` block,
lines 189-253): the first thrown error wins, the `isLoggedIn` and
`postSuccess` checks throw their fixed messages, and the link steps run
only when `hasLink`. -/
def attemptOutcome (link : Bool) (env : AttemptEnv) : Except String Unit :=
  match env.gotoErr with
  | some m => .error m
  | none =>
    if !env.loggedIn then .error "Session expired during automation"
    else
      match env.clickComposeErr with
      | some m => .error m
      | none =>
        match env.typeErr with
        | some m => .error m
        | none =>
          match (if link then
                   match env.linkClickErr with
                   | some m => some m
                   | none => env.linkTypeErr
                 else none) with
          | some m => .error m
          | none =>
            match env.postClickErr with
            | some m => .error m
            | none =>
              if !env.composeStillPresent then .ok ()
              else .error "Post may not have been published"

/-- One attempt record as pushed onto `results`: ordinal `attempt` is
`i + 1`, `detail` is the success `message` field or the failure `error`
field (the caught exception's message). -/
structure AttemptRecord where
  attempt : Nat
  success : Bool
  detail : String
deriving DecidableEq, Repr

/-- Record produced by loop iteration `i` (0-based): the `try` result or
the record built in the `catch` block. -/
def mkRecord (link : Bool) (i : Nat) (env : AttemptEnv) : AttemptRecord :=
  match attemptOutcome link env with
  | .ok _ => ⟨i + 1, true, "Successfully shared post " ++ toString (i + 1)⟩
  | .error m => ⟨i + 1, false, m⟩

/-- Number of iterations of `for (let i = 0; i < shareCount; i++)`:
zero when `shareCount` is NaN (the comparison is always false), else
`shareCount` (nonnegative after clamping). -/
def loopCount : Option Int → Nat
  | none => 0
  | some c => c.toNat

/-- The `results` array after the whole loop. -/
def runShare (link : Bool) (envs : Nat → AttemptEnv) (n : Nat) :
    List AttemptRecord :=
  (List.range n).map (fun i => mkRecord link i (envs i))

/-- Run summary as computed at lines 271-285;
`total`/`successRate` inherit NaN from `shareCount`. -/
structure RunSummary where
  total : Option Int
  successful : Nat
  failed : Nat
  successRate : Option Int
deriving DecidableEq, Repr

/-- `Math.round((successful / shareCount) * 100)`, rational embedding (see
header note); NaN `shareCount` makes the whole expression NaN. -/
def successRateOf (successful : Nat) (shareCount : Option Int) : Option Int :=
  match shareCount with
  | none => none
  | some c => some (round ((successful : ℚ) * 100 / (c : ℚ)))

/-- Summary built from the results and the clamped count. -/
def mkSummary (results : List AttemptRecord) (shareCount : Option Int) :
    RunSummary :=
  { total := shareCount
    successful := (results.filter (fun r => r.success)).length
    failed := (results.filter (fun r => !r.success)).length
    successRate := successRateOf (results.filter (fun r => r.success)).length shareCount }

/-- Pre-loop browser-world oracle for one `/api/share` request:
`launchErr` as for validation; `setupErr` covers
newPage/setViewport/setUserAgent/setCookie throwing (browser already
assigned, so the `finally` block closes it); `attempts i` is the world
seen by 0-based attempt `i`. -/
structure ShareEnv where
  launchErr : Option String
  setupErr : Option String
  attempts : Nat → AttemptEnv

/-- Response of `/api/share`, one constructor per exit path. -/
inductive ShareResponse where
  | badRequest : String → ShareResponse
  | ok : List AttemptRecord → RunSummary → ShareResponse
  | serverError : String → ShareResponse
deriving DecidableEq, Repr

/-- HTTP status code of a `/api/share` response. -/
def ShareResponse.status : ShareResponse → Nat
  | .badRequest _ => 400
  | .ok _ _ => 200
  | .serverError _ => 500

/-- The `success` field of a `/api/share` response body. -/
def ShareResponse.successField : ShareResponse → Bool
  | .ok _ _ => true
  | _ => false

/-- The `results` array of a `/api/share` response, when present. -/
def ShareResponse.results : ShareResponse → Option (List AttemptRecord)
  | .ok rs _ => some rs
  | _ => none

/-- The `summary` object of a `/api/share` response, when present. -/
def ShareResponse.summary : ShareResponse → Option RunSummary
  | .ok _ s => some s
  | _ => none

/-- Embedding of the `/api/share` handler: validation (lines 146-158),
clamping (160-161), launch/setup (166-184), the attempt loop (188-269),
the summary (271-286), the outer catch (288-293) and the `finally`
release (294-298).  Returns the response with the ordered event list. -/
def shareHandler (req : ShareRequest) (env : ShareEnv) :
    ShareResponse × List Event :=
  match req.appstate with
  | none => (.badRequest "Invalid AppState format", [])
  | some _ =>
    if messageMissing req.message then
      (.badRequest "Message is required", [])
    else
      let shareCount := shareCountOf req
      match env.launchErr with
      | some m => (.serverError ("Sharing failed: " ++ m), [])
      | none =>
        match env.setupErr with
        | some m =>
          (.serverError ("Sharing failed: " ++ m), [.acquire, .release])
        | none =>
          let n := loopCount shareCount
          let results := runShare (hasLink req.link) env.attempts n
          (.ok results (mkSummary results shareCount),
           .acquire :: ((List.range n).map (fun i => .attemptRun (i + 1)) ++ [.release]))

/-! ## Derived observations and concrete fixtures -/

/-- Number of occurrences of event `e` in an event trace. -/
def countEv (e : Event) : List Event → Nat
  | [] => 0
  | x :: xs => (if x = e then 1 else 0) + countEv e xs

/-- Whether an event is the start of some attempt. -/
def isAttemptRun : Event → Bool
  | .attemptRun _ => true
  | _ => false

/-- Number of attempts started in an event trace. -/
def attemptEvents : List Event → Nat
  | [] => 0
  | x :: xs => (if isAttemptRun x then 1 else 0) + attemptEvents xs

/-- The relation the spec asserts between the summary fields: the counts
add up to the total and the rate is the rounded percentage of the total. -/
def summaryInvariant (sm : RunSummary) : Prop :=
  sm.total = some ((sm.successful : Int) + (sm.failed : Int)) ∧
  sm.successRate = successRateOf sm.successful sm.total

/-- Attempt world where every page operation succeeds and the compose
affordance disappears after submitting. -/
def attemptOK : AttemptEnv :=
  ⟨none, true, none, none, none, none, none, false⟩

/-- Attempt world where the authenticated-only landmark is absent. -/
def attemptExpired : AttemptEnv :=
  ⟨none, false, none, none, none, none, none, false⟩

/-- Attempt world where navigation throws. -/
def attemptBoom : AttemptEnv :=
  ⟨some "net::ERR_FAILED", true, none, none, none, none, none, false⟩

/-- Attempt world where everything works but the compose affordance is
still present after submitting. -/
def attemptUnconfirmed : AttemptEnv :=
  ⟨none, true, none, none, none, none, none, true⟩

/-- Share world with a clean launch and all attempts succeeding. -/
def envAllOK : ShareEnv := ⟨none, none, fun _ => attemptOK⟩

/-- Share world with a clean launch and every attempt's navigation
throwing. -/
def envAllBoom : ShareEnv := ⟨none, none, fun _ => attemptBoom⟩

/-- Share world where 0-based attempt 1 sees an expired session and all
other attempts succeed. -/
def envExpiredAt1 : ShareEnv :=
  ⟨none, none, fun i => if i = 1 then attemptExpired else attemptOK⟩

/-- Well-formed share request with default count and delay. -/
def reqBase : ShareRequest := ⟨some [], some "hello", none, none, none⟩

/-- Well-formed share request asking for 3 attempts. -/
def reqCount3 : ShareRequest :=
  ⟨some [], some "hello", none, some (.num 3), none⟩

/-- Well-formed share request with the out-of-range inputs from the spec
boundary scenarios: `count=15`, `delay=90`. -/
def reqCount15 : ShareRequest :=
  ⟨some [], some "hello", none, some (.num 15), some (.num 90)⟩

/-- Well-formed share request with `delay=2` (below the clamp floor). -/
def reqDelay2 : ShareRequest :=
  ⟨some [], some "hello", none, some (.num 2), some (.num 2)⟩

/-- Share request whose `count` is the non-numeric string "abc". -/
def reqNaN : ShareRequest :=
  ⟨some [], some "hello", none, some (.str "abc"), none⟩

/-- Share request with a valid appstate but no `message` field. -/
def reqNoMsg : ShareRequest := ⟨some [], none, none, none, none⟩

/-- Share request with every field absent (in particular both `appstate`
and `message` missing). -/
def reqEmpty : ShareRequest := ⟨none, none, none, none, none⟩

/-- Validate request whose cookie array has `c_user` but lacks `xs`. -/
def vreqNoXs : ValidateRequest := ⟨some [⟨"c_user", "100001"⟩]⟩

/-- Validate world with a clean launch and a logged-in page. -/
def venvOK : ValidateEnv := ⟨none, none, true, some "Your profile"⟩

/-! ## Shared lemmas -/

theorem length_runShare (l : Bool) (e : Nat → AttemptEnv) (n : Nat) :
    (runShare l e n).length = n := by
  simp [runShare]

theorem attempt_mkRecord (l : Bool) (i : Nat) (e : AttemptEnv) :
    (mkRecord l i e).attempt = i + 1 := by
  cases h : attemptOutcome l e <;> simp [mkRecord, h]

theorem get_runShare (l : Bool) (e : Nat → AttemptEnv) (n i : Nat)
    (h : i < (runShare l e n).length) :
    (runShare l e n).get ⟨i, h⟩ = mkRecord l i (e i) := by
  simp [runShare]

theorem shareCount_bounds (req : ShareRequest) (c : Int)
    (h : shareCountOf req = some c) : 1 ≤ c ∧ c ≤ 10 := by
  unfold shareCountOf at h
  cases hp : jsParseInt (req.count.getD (.num 1)) with
  | none => simp [hp, jsMax, jsMin] at h
  | some n =>
    simp [hp, jsMax, jsMin] at h
    subst h
    exact ⟨le_min (le_max_right n 1) (by norm_num), min_le_right _ _⟩

theorem countEv_append (e : Event) (l1 l2 : List Event) :
    countEv e (l1 ++ l2) = countEv e l1 + countEv e l2 := by
  induction l1 with
  | nil => simp [countEv]
  | cons x xs ih => simp [countEv, ih]; omega

theorem attemptEvents_append (l1 l2 : List Event) :
    attemptEvents (l1 ++ l2) = attemptEvents l1 + attemptEvents l2 := by
  induction l1 with
  | nil => simp [attemptEvents]
  | cons x xs ih => simp [attemptEvents, ih]; omega

theorem countEv_attemptRuns (e : Event) (n : Nat)
    (he : isAttemptRun e = false) :
    countEv e ((List.range n).map (fun i => Event.attemptRun (i + 1))) = 0 := by
  induction n with
  | zero => rfl
  | succ n ih =>
    rw [List.range_succ, List.map_append, countEv_append, ih]
    have hne : (Event.attemptRun (n + 1) = e) = False := by
      cases e <;> simp_all [isAttemptRun]
    simp [countEv, hne]

theorem countEv_trace (e : Event) (n : Nat) (he : isAttemptRun e = false) :
    countEv e
      (Event.acquire ::
        ((List.range n).map (fun i => Event.attemptRun (i + 1)) ++ [Event.release])) =
    (if Event.acquire = e then 1 else 0) + (if Event.release = e then 1 else 0) := by
  simp [countEv, countEv_append, countEv_attemptRuns e n he]

theorem attemptEvents_runs (n : Nat) :
    attemptEvents
      (Event.acquire ::
        ((List.range n).map (fun i => Event.attemptRun (i + 1)) ++ [Event.release])) = n := by
  have h1 : ∀ m : Nat,
      attemptEvents ((List.range m).map (fun i => Event.attemptRun (i + 1))) = m := by
    intro m
    induction m with
    | zero => rfl
    | succ m ih =>
      rw [List.range_succ, List.map_append, attemptEvents_append, ih]
      simp [attemptEvents, isAttemptRun]
  rw [show (Event.acquire ::
        ((List.range n).map (fun i => Event.attemptRun (i + 1)) ++ [Event.release])) =
      [Event.acquire] ++ ((List.range n).map (fun i => Event.attemptRun (i + 1)) ++ [Event.release])
    from rfl, attemptEvents_append, attemptEvents_append, h1]
  simp [attemptEvents, isAttemptRun]

theorem filter_success_add (rs : List AttemptRecord) :
    (rs.filter (fun r => r.success)).length +
      (rs.filter (fun r => !r.success)).length = rs.length := by
  induction rs with
  | nil => rfl
  | cons a t ih =>
    cases h : a.success <;> simp [List.filter, h] <;> omega

theorem map_attempt_runShare (l : Bool) (e : Nat → AttemptEnv) (n : Nat) :
    (runShare l e n).map (fun r => r.attempt) =
      (List.range n).map (fun i => i + 1) := by
  unfold runShare
  rw [List.map_map]
  exact List.map_congr_left (fun i _ => attempt_mkRecord l i (e i))

theorem shareHandler_ok (req : ShareRequest) (env : ShareEnv)
    (cookies : List Cookie)
    (ha : req.appstate = some cookies)
    (hm : messageMissing req.message = false)
    (hl : env.launchErr = none) (hs : env.setupErr = none) :
    shareHandler req env =
      (ShareResponse.ok
        (runShare (hasLink req.link) env.attempts (loopCount (shareCountOf req)))
        (mkSummary
          (runShare (hasLink req.link) env.attempts (loopCount (shareCountOf req)))
          (shareCountOf req)),
       Event.acquire ::
        ((List.range (loopCount (shareCountOf req))).map
          (fun i => Event.attemptRun (i + 1)) ++ [Event.release])) := by
  simp [shareHandler, ha, hm, hl, hs]

/-! ## Claims -/

/-- C4: for every `/api/validate` request whose cookie array lacks an entry
named `c_user` or one named `xs`, the endpoint returns status 400 with
`success:false`, and no browser resource is acquired before that return. -/
theorem validate_missing_cookies (req : ValidateRequest) (env : ValidateEnv)
    (cookies : List Cookie) (ha : req.appstate = some cookies)
    (h : cookies.find? (fun c => c.name = "c_user") = none ∨
         cookies.find? (fun c => c.name = "xs") = none) :
    (validateHandler req env).1 =
      ValidateResponse.badRequest "Missing required cookies: c_user or xs" ∧
    (validateHandler req env).1.status = 400 ∧
    (validateHandler req env).1.successField = false ∧
    (validateHandler req env).2 = [] := by
  cases hcu : cookies.find? (fun c => c.name = "c_user") <;>
    cases hxs : cookies.find? (fun c => c.name = "xs") <;>
      simp [validateHandler, ha, hcu, hxs, ValidateResponse.status,
        ValidateResponse.successField] at h ⊢

/-- C4 witness: a cookie array holding only `c_user` is rejected with 400
and an empty event trace. -/
theorem validate_missing_cookies_witness :
    (validateHandler vreqNoXs venvOK).1 =
      ValidateResponse.badRequest "Missing required cookies: c_user or xs" ∧
    (validateHandler vreqNoXs venvOK).1.status = 400 ∧
    (validateHandler vreqNoXs venvOK).1.successField = false ∧
    (validateHandler vreqNoXs venvOK).2 = [] :=
  validate_missing_cookies vreqNoXs venvOK [⟨"c_user", "100001"⟩] rfl
    (Or.inr (by decide))

/-- C5: `count` is coerced and clamped to [1,10] and `delay` to [5,60]
before any attempt runs; `count=15` yields 10 attempts, `delay=2` yields 5
and `delay=90` yields 60 seconds. -/
theorem share_clamps :
    (∀ req : ShareRequest, ∀ n : Int,
        jsParseInt (req.count.getD (.num 1)) = some n →
        shareCountOf req = some (min (max n 1) 10)) ∧
    (∀ req : ShareRequest, ∀ n : Int,
        jsParseInt (req.delay.getD (.num 15)) = some n →
        shareDelayOf req = some (min (max n 5) 60)) ∧
    shareCountOf reqCount15 = some 10 ∧
    shareDelayOf reqDelay2 = some 5 ∧
    shareDelayOf reqCount15 = some 60 ∧
    (∀ env : ShareEnv, env.launchErr = none → env.setupErr = none →
        attemptEvents (shareHandler reqCount15 env).2 = 10) := by
  refine ⟨?_, ?_, by decide, by decide, by decide, ?_⟩
  · intro req n h
    simp [shareCountOf, h, jsMax, jsMin]
  · intro req n h
    simp [shareDelayOf, h, jsMax, jsMin]
  · intro env hl hs
    rw [shareHandler_ok reqCount15 env [] rfl (by decide) hl hs]
    exact attemptEvents_runs _

/-- C5 witness: concrete clamp values and a 10-attempt trace for the
`count=15` request. -/
theorem share_clamps_witness :
    shareCountOf reqCount3 = some 3 ∧
    shareDelayOf reqDelay2 = some 5 ∧
    attemptEvents (shareHandler reqCount15 envAllOK).2 = 10 := by
  refine ⟨?_, ?_, ?_⟩
  · have h := share_clamps.1 reqCount3 3 rfl
    simpa using h
  · have h := share_clamps.2.1 reqDelay2 2 rfl
    simpa using h
  · exact share_clamps.2.2.2.2.2 envAllOK rfl rfl

/-- C7: when every step up to Submit succeeds, the attempt is judged
successful exactly when the compose affordance is no longer present; if it
is still present the record is a Failure with the publish-unconfirmed
reason. -/
theorem attempt_publish_verdict (l : Bool) (i : Nat) (e : AttemptEnv)
    (h1 : e.gotoErr = none) (h2 : e.loggedIn = true)
    (h3 : e.clickComposeErr = none) (h4 : e.typeErr = none)
    (h5 : e.linkClickErr = none) (h6 : e.linkTypeErr = none)
    (h7 : e.postClickErr = none) :
    ((mkRecord l i e).success = true ↔ e.composeStillPresent = false) ∧
    (e.composeStillPresent = true →
      mkRecord l i e = ⟨i + 1, false, "Post may not have been published"⟩) ∧
    (e.composeStillPresent = false →
      mkRecord l i e =
        ⟨i + 1, true, "Successfully shared post " ++ toString (i + 1)⟩) := by
  cases hc : e.composeStillPresent <;>
    cases l <;>
      simp [mkRecord, attemptOutcome, h1, h2, h3, h4, h5, h6, h7, hc]

/-- C7 witness: with all steps fine but the compose affordance still
present, attempt 0 is recorded as the publish-unconfirmed Failure. -/
theorem attempt_publish_verdict_witness :
    ((mkRecord false 0 attemptUnconfirmed).success = true ↔
      attemptUnconfirmed.composeStillPresent = false) ∧
    (attemptUnconfirmed.composeStillPresent = true →
      mkRecord false 0 attemptUnconfirmed =
        ⟨0 + 1, false, "Post may not have been published"⟩) ∧
    (attemptUnconfirmed.composeStillPresent = false →
      mkRecord false 0 attemptUnconfirmed =
        ⟨0 + 1, true, "Successfully shared post " ++ toString (0 + 1)⟩) :=
  attempt_publish_verdict false 0 attemptUnconfirmed rfl rfl rfl rfl rfl rfl rfl

/-- C2: every accepted share run with clamped attempt count `c` returns a
results array of exactly `c` entries whose attempt ordinals are `1..c`,
contiguous and in order. -/
theorem share_results_ordinals (req : ShareRequest) (env : ShareEnv)
    (cookies : List Cookie) (c : Int)
    (ha : req.appstate = some cookies)
    (hm : messageMissing req.message = false)
    (hl : env.launchErr = none) (hs : env.setupErr = none)
    (hc : shareCountOf req = some c) :
    ∃ rs : List AttemptRecord, ∃ sm : RunSummary,
      (shareHandler req env).1 = ShareResponse.ok rs sm ∧
      rs.length = c.toNat ∧
      rs.map (fun r => r.attempt) = (List.range c.toNat).map (fun i => i + 1) := by
  refine ⟨runShare (hasLink req.link) env.attempts (loopCount (shareCountOf req)),
    mkSummary
      (runShare (hasLink req.link) env.attempts (loopCount (shareCountOf req)))
      (shareCountOf req), ?_, ?_, ?_⟩
  · rw [shareHandler_ok req env cookies ha hm hl hs]
  · rw [length_runShare, hc]
    rfl
  · rw [map_attempt_runShare, hc]
    rfl

/-- C2 witness: `count=3` with a clean run yields records with ordinals
1, 2, 3. -/
theorem share_results_ordinals_witness :
    ∃ rs : List AttemptRecord, ∃ sm : RunSummary,
      (shareHandler reqCount3 envAllOK).1 = ShareResponse.ok rs sm ∧
      rs.length = (3 : Int).toNat ∧
      rs.map (fun r => r.attempt) =
        (List.range (3 : Int).toNat).map (fun i => i + 1) :=
  share_results_ordinals reqCount3 envAllOK [] 3 rfl (by decide) rfl rfl (by decide)

/-- C1 counterexample: a run whose `count` field is the non-numeric string
"abc" is accepted, but its summary has `total = NaN` while
`successful + failed = 0`, so the claimed equation fails for that run. -/
theorem share_summary_nan_counterexample :
    (shareHandler reqNaN envAllOK).1.summary =
      some { total := none, successful := 0, failed := 0, successRate := none } ∧
    ¬ summaryInvariant
        { total := none, successful := 0, failed := 0, successRate := none } := by
  constructor
  · rfl
  · intro h
    exact Option.noConfusion h.1

/-- C1 (amended): for every posting run whose coerced count is an actual
number (not NaN), the returned summary satisfies
`successful + failed = total` and `successRate = round(successful/total*100)`. -/
theorem share_summary_invariant (req : ShareRequest) (env : ShareEnv)
    (cookies : List Cookie) (c : Int)
    (ha : req.appstate = some cookies)
    (hm : messageMissing req.message = false)
    (hl : env.launchErr = none) (hs : env.setupErr = none)
    (hc : shareCountOf req = some c) :
    ∃ rs : List AttemptRecord, ∃ sm : RunSummary,
      (shareHandler req env).1 = ShareResponse.ok rs sm ∧
      summaryInvariant sm := by
  refine ⟨runShare (hasLink req.link) env.attempts (loopCount (shareCountOf req)),
    mkSummary
      (runShare (hasLink req.link) env.attempts (loopCount (shareCountOf req)))
      (shareCountOf req),
    by rw [shareHandler_ok req env cookies ha hm hl hs], ?_, ?_⟩
  · have hb := shareCount_bounds req c hc
    have hsum := filter_success_add
      (runShare (hasLink req.link) env.attempts (loopCount (shareCountOf req)))
    rw [length_runShare] at hsum
    rw [hc] at hsum
    simp only [loopCount] at hsum
    simp only [mkSummary]
    rw [hc]
    congr 1
    simp only [loopCount]
    omega
  · rfl

/-- C1 (amended) witness: a clean `count=3` run has summary
`{total:3, successful:3, failed:0, successRate:100}` satisfying the
invariant. -/
theorem share_summary_invariant_witness :
    ∃ rs : List AttemptRecord, ∃ sm : RunSummary,
      (shareHandler reqCount3 envAllOK).1 = ShareResponse.ok rs sm ∧
      summaryInvariant sm :=
  share_summary_invariant reqCount3 envAllOK [] 3 rfl (by decide) rfl rfl (by decide)

/-- C3: every exception inside an attempt is caught at the attempt
boundary and recorded as a Failure carrying the raised message; the run is
never aborted, so the caller gets the complete log and a summary even when
every attempt fails. -/
theorem share_attempt_isolation (req : ShareRequest) (env : ShareEnv)
    (cookies : List Cookie)
    (ha : req.appstate = some cookies)
    (hm : messageMissing req.message = false)
    (hl : env.launchErr = none) (hs : env.setupErr = none) :
    ∃ rs : List AttemptRecord, ∃ sm : RunSummary,
      (shareHandler req env).1 = ShareResponse.ok rs sm ∧
      rs.length = loopCount (shareCountOf req) ∧
      ∀ i : Nat, ∀ h : i < rs.length, ∀ m : String,
        attemptOutcome (hasLink req.link) (env.attempts i) = .error m →
        rs.get ⟨i, h⟩ = ⟨i + 1, false, m⟩ := by
  refine ⟨runShare (hasLink req.link) env.attempts (loopCount (shareCountOf req)),
    mkSummary
      (runShare (hasLink req.link) env.attempts (loopCount (shareCountOf req)))
      (shareCountOf req),
    by rw [shareHandler_ok req env cookies ha hm hl hs],
    length_runShare _ _ _, ?_⟩
  intro i h m hout
  rw [get_runShare]
  simp [mkRecord, hout]

/-- C3 witness: with every attempt's navigation throwing, the default
one-attempt run still returns an ok response whose single record is the
Failure carrying the thrown message. -/
theorem share_attempt_isolation_witness :
    ∃ rs : List AttemptRecord, ∃ sm : RunSummary,
      (shareHandler reqBase envAllBoom).1 = ShareResponse.ok rs sm ∧
      rs.length = loopCount (shareCountOf reqBase) ∧
      ∀ i : Nat, ∀ h : i < rs.length, ∀ m : String,
        attemptOutcome (hasLink reqBase.link) (envAllBoom.attempts i) = .error m →
        rs.get ⟨i, h⟩ = ⟨i + 1, false, m⟩ :=
  share_attempt_isolation reqBase envAllBoom [] rfl (by decide) rfl rfl

/-- C6: if the authenticated-only landmark check fails on attempt `k`, that
attempt is recorded as a Failure with the session-expired reason, and every
attempt up to the clamped count is still attempted, each depending only on
its own attempt environment. -/
theorem share_session_expired (req : ShareRequest) (env : ShareEnv)
    (cookies : List Cookie) (c : Int) (k : Nat)
    (ha : req.appstate = some cookies)
    (hm : messageMissing req.message = false)
    (hl : env.launchErr = none) (hs : env.setupErr = none)
    (hc : shareCountOf req = some c)
    (hg : (env.attempts k).gotoErr = none)
    (hn : (env.attempts k).loggedIn = false) :
    ∃ rs : List AttemptRecord,
      (shareHandler req env).1.results = some rs ∧
      rs.length = c.toNat ∧
      (∀ h : k < rs.length,
        rs.get ⟨k, h⟩ = ⟨k + 1, false, "Session expired during automation"⟩) ∧
      (∀ j : Nat, j < c.toNat →
        Event.attemptRun (j + 1) ∈ (shareHandler req env).2) ∧
      (∀ j : Nat, ∀ h : j < rs.length,
        rs.get ⟨j, h⟩ = mkRecord (hasLink req.link) j (env.attempts j)) := by
  refine ⟨runShare (hasLink req.link) env.attempts (loopCount (shareCountOf req)),
    ?_, ?_, ?_, ?_, ?_⟩
  · rw [shareHandler_ok req env cookies ha hm hl hs]
    rfl
  · rw [length_runShare, hc]
    rfl
  · intro h
    rw [get_runShare]
    simp [mkRecord, attemptOutcome, hg, hn]
  · intro j hj
    rw [shareHandler_ok req env cookies ha hm hl hs]
    simp only [List.mem_cons, List.mem_append, List.mem_map, List.mem_range,
      List.mem_singleton]
    refine Or.inr (Or.inl ⟨j, ?_, rfl⟩)
    rw [hc]
    exact hj
  · intro j h
    exact get_runShare _ _ _ _ _

/-- C6 witness: in a 3-attempt run whose second attempt sees an expired
session, record 2 is the session-expired Failure and all three attempts
ran. -/
theorem share_session_expired_witness :
    ∃ rs : List AttemptRecord,
      (shareHandler reqCount3 envExpiredAt1).1.results = some rs ∧
      rs.length = (3 : Int).toNat ∧
      (∀ h : 1 < rs.length,
        rs.get ⟨1, h⟩ = ⟨1 + 1, false, "Session expired during automation"⟩) ∧
      (∀ j : Nat, j < (3 : Int).toNat →
        Event.attemptRun (j + 1) ∈ (shareHandler reqCount3 envExpiredAt1).2) ∧
      (∀ j : Nat, ∀ h : j < rs.length,
        rs.get ⟨j, h⟩ =
          mkRecord (hasLink reqCount3.link) j (envExpiredAt1.attempts j)) :=
  share_session_expired reqCount3 envExpiredAt1 [] 3 1 rfl (by decide) rfl rfl
    (by decide) (by decide) (by decide)

/-- C8: for every request to either endpoint, a browser session is
acquired at most once and released exactly as many times as it was
acquired, on every exit path. -/
theorem session_released_once :
    ∀ (vreq : ValidateRequest) (venv : ValidateEnv)
      (sreq : ShareRequest) (senv : ShareEnv),
      (countEv Event.acquire (validateHandler vreq venv).2 ≤ 1 ∧
       countEv Event.release (validateHandler vreq venv).2 =
         countEv Event.acquire (validateHandler vreq venv).2) ∧
      (countEv Event.acquire (shareHandler sreq senv).2 ≤ 1 ∧
       countEv Event.release (shareHandler sreq senv).2 =
         countEv Event.acquire (shareHandler sreq senv).2) := by
  intro vreq venv sreq senv
  constructor
  · rcases vreq with ⟨as⟩
    cases as with
    | none => simp [validateHandler, countEv]
    | some cookies =>
      rcases venv with ⟨le, ne, li, ui⟩
      cases hcu : cookies.find? (fun c => c.name = "c_user") <;>
        cases hxs : cookies.find? (fun c => c.name = "xs") <;>
          cases le <;> cases ne <;> cases li <;>
            simp [validateHandler, hcu, hxs, countEv]
  · rcases sreq with ⟨as, msg, lnk, cnt, dly⟩
    cases as with
    | none => simp [shareHandler, countEv]
    | some cookies =>
      rcases senv with ⟨le, se, ats⟩
      cases hm : messageMissing msg with
      | true => simp [shareHandler, hm, countEv]
      | false =>
        cases le with
        | some m => simp [shareHandler, hm, countEv]
        | none =>
          cases se with
          | some m => simp [shareHandler, hm, countEv]
          | none =>
            have hev := shareHandler_ok ⟨some cookies, msg, lnk, cnt, dly⟩
              ⟨none, none, ats⟩ cookies rfl hm rfl rfl
            rw [congrArg Prod.snd hev,
              countEv_trace Event.acquire _ rfl,
              countEv_trace Event.release _ rfl]
            simp

/-- C9 counterexample: a request missing its `message` field but also
carrying an invalid `appstate` gets the appstate error body, not
`"Message is required"`, so the claim fails as stated for that request. -/
theorem share_message_required_counterexample :
    messageMissing reqEmpty.message = true ∧
    (shareHandler reqEmpty envAllOK).1 =
      ShareResponse.badRequest "Invalid AppState format" ∧
    ShareResponse.badRequest "Invalid AppState format" ≠
      ShareResponse.badRequest "Message is required" := by
  refine ⟨rfl, rfl, ?_⟩
  decide

/-- C9 (amended): for every `/api/share` request with a well-formed
`appstate` array whose message is missing or trims to empty, the endpoint
returns 400 `{success:false, error:"Message is required"}`, zero attempts
run and no browser resource is acquired. -/
theorem share_message_required (req : ShareRequest) (env : ShareEnv)
    (cookies : List Cookie)
    (ha : req.appstate = some cookies)
    (hm : messageMissing req.message = true) :
    (shareHandler req env).1 = ShareResponse.badRequest "Message is required" ∧
    (shareHandler req env).1.status = 400 ∧
    (shareHandler req env).1.successField = false ∧
    (shareHandler req env).2 = [] ∧
    attemptEvents (shareHandler req env).2 = 0 := by
  simp [shareHandler, ha, hm, ShareResponse.status, ShareResponse.successField,
    attemptEvents]

/-- C9 (amended) witness: valid appstate with an absent message field. -/
theorem share_message_required_witness :
    (shareHandler reqNoMsg envAllOK).1 =
      ShareResponse.badRequest "Message is required" ∧
    (shareHandler reqNoMsg envAllOK).1.status = 400 ∧
    (shareHandler reqNoMsg envAllOK).1.successField = false ∧
    (shareHandler reqNoMsg envAllOK).2 = [] ∧
    attemptEvents (shareHandler reqNoMsg envAllOK).2 = 0 :=
  share_message_required reqNoMsg envAllOK [] rfl rfl

/-- C10: when `count` is present but non-numeric while appstate and message
are valid, the clamp yields NaN, the loop runs zero times, and the endpoint
responds `success:true` with empty results and a summary whose `total` and
`successRate` are NaN. -/
theorem share_nan_count (req : ShareRequest) (env : ShareEnv)
    (cookies : List Cookie) (v : JsonVal)
    (ha : req.appstate = some cookies)
    (hm : messageMissing req.message = false)
    (hv : req.count = some v)
    (hp : jsParseInt v = none)
    (hl : env.launchErr = none) (hs : env.setupErr = none) :
    shareCountOf req = none ∧
    (shareHandler req env).1 =
      ShareResponse.ok []
        { total := none, successful := 0, failed := 0, successRate := none } ∧
    (shareHandler req env).1.successField = true ∧
    attemptEvents (shareHandler req env).2 = 0 := by
  have hc : shareCountOf req = none := by
    simp [shareCountOf, hv, hp, jsMax, jsMin]
  have hev := shareHandler_ok req env cookies ha hm hl hs
  rw [hc] at hev
  refine ⟨hc, ?_, ?_, ?_⟩
  · rw [congrArg Prod.fst hev]
    rfl
  · rw [congrArg Prod.fst hev]
    rfl
  · rw [congrArg Prod.snd hev]
    rfl

/-- C10 witness: `count="abc"` on an otherwise valid request. -/
theorem share_nan_count_witness :
    shareCountOf reqNaN = none ∧
    (shareHandler reqNaN envAllOK).1 =
      ShareResponse.ok []
        { total := none, successful := 0, failed := 0, successRate := none } ∧
    (shareHandler reqNaN envAllOK).1.successField = true ∧
    attemptEvents (shareHandler reqNaN envAllOK).2 = 0 :=
  share_nan_count reqNaN envAllOK [] (.str "abc") rfl (by decide) rfl (by decide)
    rfl rfl

end FbBackend
